import Mathlib

/-!
Verification of the textgpt conversation session manager
(`src/chatbot.rs`), shallowly embedded in Lean 4.

Time is modelled as `Int` nanoseconds since the Unix epoch, matching
chrono's `DateTime<Utc>` precision; `DateTime::timestamp()` is floor
division by `10^9` and `DateTime::from_timestamp(s, 0)` is `s * 10^9`.
The SQLite store is a partial map from phone number to a stored row;
`serde_json` (an external library) is taken as a faithful bijection on
message lists, so the row holds the message list itself.  The OpenAI
call is an oracle parameter: `handle_message` receives the function
from the sent message list to the provider's result, and a panicking
`unwrap` in the Rust source is modelled as `Option.none`.
-/

namespace TextGpt

/-- `chrono::Duration::days(1)` in nanoseconds. -/
def oneDay : Int := 86400 * 1000000000

/-- Nanoseconds per second, for `timestamp()` / `from_timestamp`. -/
def nanosPerSecond : Int := 1000000000

/-- `const DAILY_MESSAGE_LIMIT: i32 = 10;` from `src/chatbot.rs`. -/
def DAILY_MESSAGE_LIMIT : Int := 10

/-- `struct GPTMessage { role: String, content: String }` from
`src/chatbot.rs` (roles used by the manager: "User", "System"). -/
structure GPTMessage where
  role : String
  content : String
deriving DecidableEq, Repr

/-- `struct User` from `src/chatbot.rs`: the per-sender session.
`last_reset` is in nanoseconds since epoch. -/
structure User where
  phone_number : String
  total_received : Int
  total_sent : Int
  received_today : Int
  messages : List GPTMessage
  last_reset : Int
deriving DecidableEq, Repr

/-- One row of the `messages` SQLite table: counters, the serialized
message list (held as the list itself, `serde_json` being a faithful
round trip), and `last_reset` stored as whole epoch seconds
(`user.last_reset.timestamp()`). -/
structure StoredRow where
  total_received : Int
  total_sent : Int
  received_today : Int
  messages : List GPTMessage
  last_reset : Int
deriving DecidableEq, Repr

/-- The database: at most one row per phone number (primary key). -/
def DB : Type := String → Option StoredRow

/-- The empty database (freshly created table). -/
def emptyDB : DB := fun _ => none

/-- `ChatCompletionMessageRole` from the `openai` crate (the two values
the manager produces). -/
inductive ChatCompletionMessageRole where
  | user
  | system
deriving DecidableEq, Repr

/-- `ChatCompletionMessage` from the `openai` crate; the manager always
sets `name`, `function_call`, `tool_call_id` to `None` and `tool_calls`
to `[]` (those fields are modelled as `Option String` / `List String`
placeholders since the manager never constructs them). -/
structure ChatCompletionMessage where
  role : ChatCompletionMessageRole
  content : Option String
  name : Option String
  function_call : Option String
  tool_call_id : Option String
  tool_calls : List String
deriving DecidableEq, Repr

/-- The `message` field of a returned choice: `content` is optional in
the provider's schema (`.content.unwrap()` in the source can panic). -/
structure ChoiceMessage where
  role : ChatCompletionMessageRole
  content : Option String
deriving DecidableEq, Repr

/-- One candidate reply in the provider's response. -/
structure ChatCompletionChoice where
  message : ChoiceMessage
deriving DecidableEq, Repr

/-- The provider's successful response: a list of candidate choices
(possibly empty: `.choices.first().unwrap()` in the source can panic). -/
structure ChatCompletion where
  choices : List ChatCompletionChoice
deriving DecidableEq, Repr

/-- The external completion call: from the sent messages to either a
response or a transport/API error (the `Result` of
`ChatCompletion::builder(..).create().await`). -/
def CompletionApi : Type := List ChatCompletionMessage → Except String ChatCompletion

/-- Models from the library: chrono's `Display` rendering of a
`DateTime<Utc>` instant, as interpolated by `format!`.  Any injective
rendering works for the claims; we render the raw nanosecond count. -/
def formatUtc (t : Int) : String := toString t

/-- The quota-exceeded reply built at `src/chatbot.rs:87-91`:
`format!("You have reached the daily message limit of {}. Your quota
will reset at {}", DAILY_MESSAGE_LIMIT, user.last_reset + Duration::days(1))`.
The argument is the already-summed instant `last_reset + oneDay`. -/
def quotaMessage (resetAt : Int) : String :=
  "You have reached the daily message limit of 10. Your quota will reset at "
    ++ formatUtc resetAt

/-- The `!stats` reply built at `src/chatbot.rs:96-99`. -/
def statsMessage (u : User) : String :=
  "Total messages received: " ++ toString u.total_received
    ++ ", Total messages sent: " ++ toString u.total_sent
    ++ ", Messages received today: " ++ toString u.received_today

/-- The daily-quota reset at the top of `handle_short_circuits`
(`src/chatbot.rs:77-80`): if `Utc::now() >= user.last_reset +
Duration::days(1)`, zero `received_today` and advance `last_reset`. -/
def daily_reset (user : User) (now : Int) : User :=
  if now ≥ user.last_reset + oneDay then
    { user with received_today := 0, last_reset := now }
  else user

/-- The command dispatch at the bottom of `handle_short_circuits`
(`src/chatbot.rs:94-101`): an exact, untrimmed `match` on the message
text. -/
def command_reply (user : User) (msg : String) : Option String :=
  if msg = "!help" then some "Commands: !help, !stats"
  else if msg = "!stats" then some (statsMessage user)
  else none

/-- `ChatBot::handle_short_circuits` (`src/chatbot.rs:75-102`).  Returns
the short-circuit reply (if any) together with the mutated user (the
Rust function takes `&mut User`). -/
def handle_short_circuits (user : User) (msg : String) (now : Int) :
    Option String × User :=
  let user := daily_reset user now
  let user := { user with
    received_today := user.received_today + 1,
    total_received := user.total_received + 1 }
  if user.received_today ≥ DAILY_MESSAGE_LIMIT then
    (some (quotaMessage (user.last_reset + oneDay)), user)
  else
    (command_reply user msg, user)

/-- `ChatBot::make_chat_completion_message` (`src/chatbot.rs:130-146`):
map each stored message to a provider message, sending role "User" to
the user role and "Assistant" | "System" | anything else to the system
role; content is wrapped in `Some`. -/
def make_chat_completion_message (messages : List GPTMessage) :
    List ChatCompletionMessage :=
  messages.map fun msg =>
    { role :=
        if msg.role = "User" then ChatCompletionMessageRole.user
        else if msg.role = "Assistant" then ChatCompletionMessageRole.system
        else if msg.role = "System" then ChatCompletionMessageRole.system
        else ChatCompletionMessageRole.system,
      content := some msg.content,
      name := none,
      function_call := none,
      tool_call_id := none,
      tool_calls := [] }

/-- `ChatBot::get_gpt_response` (`src/chatbot.rs:149-169`).  On `Err`,
the fixed fallback string; on `Ok`, `.choices.first().unwrap().message
.clone().content.unwrap().trim().to_string()` — the two `unwrap`s panic
(modelled as `none`) when the choice list is empty or the first
choice's content is absent. -/
def get_gpt_response (api : CompletionApi)
    (messages : List ChatCompletionMessage) : Option String :=
  match api messages with
  | Except.ok chat_completion =>
      match chat_completion.choices.head? with
      | none => none
      | some choice =>
          match choice.message.content with
          | none => none
          | some content => some content.trim
  | Except.error _ => some "Failed to get response."

/-- The default system prompt seeded by `find_user`
(`src/chatbot.rs:196-200`). -/
def defaultPrompt : String :=
  "You are a helpful assistant. Please keep your responses concise."

/-- `ChatBot::find_user` (`src/chatbot.rs:172-204`): start from a fresh
user (`last_reset = Utc::now()`), overwrite from the row if one exists
(`last_reset` rebuilt from whole epoch seconds), then seed the default
system prompt if the message list is empty. -/
def find_user (db : DB) (phone_number : String) (now : Int) : User :=
  let user : User :=
    { phone_number := phone_number
      total_received := 0
      total_sent := 0
      received_today := 0
      messages := []
      last_reset := now }
  let user : User :=
    match db phone_number with
    | none => user
    | some row =>
        { user with
          total_received := row.total_received
          total_sent := row.total_sent
          received_today := row.received_today
          messages := row.messages
          last_reset := row.last_reset * nanosPerSecond }
  if user.messages.isEmpty then
    { user with messages := [{ role := "System", content := defaultPrompt }] }
  else user

/-- `ChatBot::update_db` (`src/chatbot.rs:207-229`): atomic upsert keyed
on `phone_number`; `messages` serialized, `last_reset` stored as
`user.last_reset.timestamp()` (whole seconds, floor division). -/
def update_db (db : DB) (user : User) : DB :=
  fun pn =>
    if pn = user.phone_number then
      some
        { total_received := user.total_received
          total_sent := user.total_sent
          received_today := user.received_today
          messages := user.messages
          last_reset := Int.fdiv user.last_reset nanosPerSecond }
    else db pn

/-- The observable outcome of one `handle_message` call: the reply, the
database after the call, and whether the completion provider was
invoked. -/
structure HandleResult where
  reply : String
  db : DB
  calledGpt : Bool

/-- `ChatBot::handle_message` (`src/chatbot.rs:42-70`).  `none` models a
panic escaping the call (the `unwrap`s inside `get_gpt_response`).  On
the short-circuit path the source runs `update_db` first and only then
`user.total_sent += 1` on the local copy it is about to drop, so the
increment is never persisted — the model persists the user as it was at
`update_db` time, faithfully. -/
def handle_message (api : CompletionApi) (db : DB)
    (from_ : String) (message : String) (now : Int) : Option HandleResult :=
  let user := find_user db from_ now
  match handle_short_circuits user message now with
  | (some short_circuit, user) =>
      some { reply := short_circuit, db := update_db db user, calledGpt := false }
  | (none, user) =>
      let user := { user with
        messages := user.messages ++ [({ role := "User", content := message } : GPTMessage)] }
      match get_gpt_response api (make_chat_completion_message user.messages) with
      | none => none
      | some returned_message =>
          let user := { user with
            messages := user.messages
              ++ [({ role := "System", content := returned_message } : GPTMessage)] }
          let user := { user with total_sent := user.total_sent + 1 }
          some { reply := returned_message, db := update_db db user,
                 calledGpt := true }

/-- Run a sequence of messages from one sender at one instant, threading
the database; a panicking call (`none`) leaves the database unchanged. -/
def runSeq (api : CompletionApi) (db : DB) (from_ : String)
    (msgs : List String) (now : Int) : DB :=
  msgs.foldl
    (fun db m =>
      match handle_message api db from_ m now with
      | some r => r.db
      | none => db)
    db

/-- An API oracle that always fails with a transport error. -/
def apiErr : CompletionApi := fun _ => Except.error "connection error"

/-- An API oracle that succeeds with an empty candidate list. -/
def apiEmptyChoices : CompletionApi := fun _ =>
  Except.ok ({ choices := [] } : ChatCompletion)

/-- An API oracle that succeeds, first candidate carrying `content`. -/
def apiOk (s : String) : CompletionApi := fun _ =>
  Except.ok
    ({ choices := [{ message := { role := ChatCompletionMessageRole.system,
                                  content := some s } }] } : ChatCompletion)

end TextGpt

namespace TextGpt

/-! ### Helper lemmas shared across claims -/

/-- `handle_short_circuits` never touches the message history. -/
theorem handle_short_circuits_messages (u : User) (msg : String) (now : Int) :
    (handle_short_circuits u msg now).2.messages = u.messages := by
  unfold handle_short_circuits daily_reset command_reply
  split <;> split <;> simp_all <;> split <;> simp_all

/-- `handle_short_circuits` increments `total_received` by exactly 1. -/
theorem handle_short_circuits_total_received (u : User) (msg : String) (now : Int) :
    (handle_short_circuits u msg now).2.total_received = u.total_received + 1 := by
  unfold handle_short_circuits daily_reset command_reply
  split <;> split <;> simp_all <;> split <;> simp_all

/-- `handle_short_circuits` never changes `total_sent`. -/
theorem handle_short_circuits_total_sent (u : User) (msg : String) (now : Int) :
    (handle_short_circuits u msg now).2.total_sent = u.total_sent := by
  unfold handle_short_circuits daily_reset command_reply
  split <;> split <;> simp_all <;> split <;> simp_all

/-- `handle_short_circuits` keeps the phone number. -/
theorem handle_short_circuits_phone (u : User) (msg : String) (now : Int) :
    (handle_short_circuits u msg now).2.phone_number = u.phone_number := by
  unfold handle_short_circuits daily_reset command_reply
  split <;> split <;> simp_all <;> split <;> simp_all

/-- `find_user` returns a user carrying the requested phone number. -/
theorem find_user_phone_number (db : DB) (s : String) (now : Int) :
    (find_user db s now).phone_number = s := by
  unfold find_user
  split <;> dsimp only <;> split <;> rfl

end TextGpt

namespace TextGpt

/-! ### Concrete fixtures -/

/-- A freshly created session with no history, as `find_user` builds it
before seeding (all counters 0), at epoch instant 0. -/
def emptySession : User :=
  { phone_number := "+1555", total_received := 0, total_sent := 0,
    received_today := 0, messages := [], last_reset := 0 }

/-- A session with one stored message and a sub-second `last_reset`
(1 nanosecond past the epoch). -/
def subSecondSession : User :=
  { phone_number := "+1555", total_received := 0, total_sent := 0,
    received_today := 0,
    messages := [{ role := "System", content := defaultPrompt }],
    last_reset := 1 }

/-- The database of the spec's scenario 2: the sender's row holds
`total_received = 1`, `total_sent = 1`, `received_today = 1` with a
non-empty history and `last_reset = 0` epoch seconds. -/
def statsScenarioDB : DB := fun pn =>
  if pn = "+1555" then
    some { total_received := 1, total_sent := 1, received_today := 1,
           messages := [{ role := "System", content := defaultPrompt }],
           last_reset := 0 }
  else none

/-! ### C1: completion-provider failure handling -/

/-- C1, counterexample.  An `Ok` provider response with an empty
candidate list is NOT mapped to the fallback string: the `unwrap` in
`get_gpt_response` panics and `handle_message` produces no reply at all
(modelled as `none`), contradicting the claim that every provider
failure is caught and answered with "Failed to get response.". -/
theorem ok_empty_choices_aborts_call :
    handle_message apiEmptyChoices emptyDB "+1555" "hi" 0 = none ∧
      get_gpt_response apiEmptyChoices
        (make_chat_completion_message emptySession.messages) = none := by
  constructor <;> rfl

/-! ### C2: persisted counters after a short-circuited call -/

/-- C2, code-bug demonstration.  A fresh sender sends "!help" (a
command short-circuit): the persisted row has `total_received = 1`
(pre-call 0 plus 1) but `total_sent = 0`, i.e. still the pre-call
value — `update_db` runs before `user.total_sent += 1`, and the
incremented local copy is dropped, so the increment is never stored. -/
theorem short_circuit_persists_stale_total_sent :
    (handle_message apiErr emptyDB "+1555" "!help" 0).map
        (fun r => r.db "+1555") =
      some (some
        { total_received := 1, total_sent := 0, received_today := 1,
          messages := [{ role := "System", content := defaultPrompt }],
          last_reset := 0 }) := by
  rfl

/-! ### C4: the `!stats` reply in the spec's scenario 2 -/

/-- C4, counterexample.  With pre-call counters
`total_received = total_sent = received_today = 1`, the `!stats` reply
is not the claimed string counting the reply being produced: the code
formats `total_sent` before any increment. -/
theorem stats_reply_counterexample :
    (handle_message apiErr statsScenarioDB "+1555" "!stats" 0).map
        (fun r => r.reply) ≠
      some ("Total messages received: 2, Total messages sent: 2, " ++
            "Messages received today: 2") := by
  decide

end TextGpt

namespace TextGpt

/-! ### C3: quota behaviour over a message sequence -/

/-- C3, counterexample.  Eleven plain messages from one fresh sender,
all within a single 24-hour window (all at instant 0): the persisted
`received_today` ends at 11, strictly above the configured limit of 10
— the increment at `src/chatbot.rs:82` runs before the quota compare
and is persisted even for quota-blocked messages. -/
theorem received_today_exceeds_limit_after_eleven :
    ((runSeq apiErr emptyDB "+1555" (List.replicate 11 "hi") 0) "+1555").map
        (fun r => r.received_today) = some 11 ∧
      DAILY_MESSAGE_LIMIT < 11 := by
  constructor
  · set_option maxRecDepth 4000 in rfl
  · decide

/-! ### C5: store round trip -/

/-- C5, counterexample.  The `update_db`/`find_user` round trip is not
the identity: a session with an empty history comes back with the
seeded default system prompt, and a `last_reset` with sub-second
precision (here 1 nanosecond) is truncated to whole epoch seconds. -/
theorem round_trip_counterexample :
    find_user (update_db emptyDB emptySession) "+1555" 0 ≠ emptySession ∧
      find_user (update_db emptyDB subSecondSession) "+1555" 0 ≠
        subSecondSession := by
  constructor <;> decide

/-! ### C6: command recognition -/

/-- Surrounding-whitespace removal, as the spec's phrase "after
removing surrounding whitespace" / "trimmed message text" reads (the
Rust source itself never trims — that is what C6 is about). -/
def trimmed (s : String) : String :=
  let ws : Char → Bool := fun c => c = ' ' || c = '\t' || c = '\n' || c = '\r'
  String.mk (((s.data.dropWhile ws).reverse.dropWhile ws).reverse)

/-- C6, counterexample.  `" !help "` trims to the command token
`"!help"` yet is NOT handled as a command: the `match` at
`src/chatbot.rs:94` compares the untrimmed text, so the message falls
through to the completion flow. -/
theorem padded_help_not_command :
    (handle_short_circuits emptySession " !help " 0).1 = none ∧
      command_reply emptySession " !help " = none ∧
      trimmed " !help " = "!help" := by
  refine ⟨by decide, by decide, by decide⟩

end TextGpt

namespace TextGpt

/-! ### Path characterizations of `handle_message` -/

/-- When `handle_short_circuits` yields a reply, `handle_message`
returns it, persists the user as mutated by the short circuit (without
the late `total_sent` increment), and never consults the provider. -/
theorem handle_message_short_circuit (api : CompletionApi) (db : DB)
    (s m : String) (now : Int) (sc : String)
    (h : (handle_short_circuits (find_user db s now) m now).1 = some sc) :
    handle_message api db s m now =
      some { reply := sc,
             db := update_db db (handle_short_circuits (find_user db s now) m now).2,
             calledGpt := false } := by
  unfold handle_message
  rcases heq : handle_short_circuits (find_user db s now) m now with ⟨o, u⟩
  rw [heq] at h
  cases o with
  | none => exact absurd h (by simp)
  | some sc2 =>
      simp only [Option.some.injEq] at h
      subst h
      simp only [heq]

/-- When `handle_short_circuits` yields nothing, `handle_message` asks
the provider with the history extended by the user turn, and (when the
call does not panic) persists the history extended by the user turn and
the system turn carrying the reply, with `total_sent` incremented. -/
theorem handle_message_exchange (api : CompletionApi) (db : DB)
    (s m : String) (now : Int)
    (h : (handle_short_circuits (find_user db s now) m now).1 = none) :
    handle_message api db s m now =
      (get_gpt_response api (make_chat_completion_message
          ((handle_short_circuits (find_user db s now) m now).2.messages
            ++ [{ role := "User", content := m }]))).map
        (fun ret =>
          { reply := ret,
            db := update_db db
              { (handle_short_circuits (find_user db s now) m now).2 with
                messages :=
                  (handle_short_circuits (find_user db s now) m now).2.messages
                    ++ [{ role := "User", content := m }]
                    ++ [{ role := "System", content := ret }],
                total_sent :=
                  (handle_short_circuits (find_user db s now) m now).2.total_sent
                    + 1 },
            calledGpt := true }) := by
  unfold handle_message
  rcases heq : handle_short_circuits (find_user db s now) m now with ⟨o, u⟩
  rw [heq] at h
  cases o with
  | some sc => exact absurd h (by simp)
  | none =>
      simp only [heq]
      cases hg : get_gpt_response api (make_chat_completion_message
          (u.messages ++ [{ role := "User", content := m }])) with
      | none => simp [hg]
      | some ret => simp [hg, List.append_assoc]

end TextGpt

namespace TextGpt

/-- On the quota path (post-increment `received_today` at or above the
limit), `handle_short_circuits` replies with the quota message and
keeps the incremented counters. -/
theorem handle_short_circuits_quota (u : User) (msg : String) (now : Int)
    (hq : (daily_reset u now).received_today + 1 ≥ DAILY_MESSAGE_LIMIT) :
    handle_short_circuits u msg now =
      (some (quotaMessage ((daily_reset u now).last_reset + oneDay)),
       { daily_reset u now with
         received_today := (daily_reset u now).received_today + 1,
         total_received := (daily_reset u now).total_received + 1 }) := by
  unfold handle_short_circuits
  dsimp only
  rw [if_pos hq]

/-- Below the quota, `handle_short_circuits` defers to the command
dispatch on the incremented user. -/
theorem handle_short_circuits_no_quota (u : User) (msg : String) (now : Int)
    (hq : (daily_reset u now).received_today + 1 < DAILY_MESSAGE_LIMIT) :
    handle_short_circuits u msg now =
      (command_reply
        { daily_reset u now with
          received_today := (daily_reset u now).received_today + 1,
          total_received := (daily_reset u now).total_received + 1 } msg,
       { daily_reset u now with
         received_today := (daily_reset u now).received_today + 1,
         total_received := (daily_reset u now).total_received + 1 }) := by
  unfold handle_short_circuits
  dsimp only
  rw [if_neg (not_le.mpr hq)]

/-! ### C3 (amended): quota precedence and persisted counter -/

/-- C3, amended.  Within the rolling window, once the pre-call
`received_today` has reached `limit - 1` (so the unconditional
increment puts it at or above the limit), every message — commands
included, since the quota compare precedes the command `match` — is
answered with the quota reply naming the limit and `last_reset + 24h`,
the provider is not consulted, and the persisted `received_today` is
the pre-call value plus 1, hence it EXCEEDS the limit of 10 once more
than 10 messages arrive in one window (it is not capped at 10). -/
theorem quota_blocked_every_message (api : CompletionApi) (db : DB)
    (s m : String) (now : Int)
    (hwin : now < (find_user db s now).last_reset + oneDay)
    (hq : (find_user db s now).received_today + 1 ≥ DAILY_MESSAGE_LIMIT) :
    (handle_message api db s m now).map (fun r => r.reply) =
        some (quotaMessage ((find_user db s now).last_reset + oneDay)) ∧
      (handle_message api db s m now).map (fun r => r.calledGpt) = some false ∧
      (handle_message api db s m now).map (fun r => r.db s) =
        some (some
          { total_received := (find_user db s now).total_received + 1,
            total_sent := (find_user db s now).total_sent,
            received_today := (find_user db s now).received_today + 1,
            messages := (find_user db s now).messages,
            last_reset :=
              Int.fdiv (find_user db s now).last_reset nanosPerSecond }) := by
  have hd : daily_reset (find_user db s now) now = find_user db s now := by
    unfold daily_reset
    rw [if_neg (not_le.mpr hwin)]
  have hsc := handle_short_circuits_quota (find_user db s now) m now (by rw [hd]; exact hq)
  rw [hd] at hsc
  have hh := handle_message_short_circuit api db s m now _ (by rw [hsc])
  rw [hh, hsc]
  refine ⟨rfl, rfl, ?_⟩
  simp [update_db, find_user_phone_number]

/-! ### C8: command purity -/

/-- C8, confirmed.  A non-quota-blocked `!help` or `!stats` call never
consults the completion provider, persists the history exactly as
loaded (no entry appended), and the reply is the command dispatch's
output, a function of the current counters alone. -/
theorem command_purity (api : CompletionApi) (db : DB)
    (s m : String) (now : Int)
    (hm : m = "!help" ∨ m = "!stats")
    (hq : (daily_reset (find_user db s now) now).received_today + 1 <
      DAILY_MESSAGE_LIMIT) :
    (handle_message api db s m now).map (fun r => r.calledGpt) = some false ∧
      (handle_message api db s m now).map
          (fun r => (r.db s).map (fun row => row.messages)) =
        some (some (find_user db s now).messages) ∧
      (handle_message api db s m now).map (fun r => r.reply) =
        command_reply (handle_short_circuits (find_user db s now) m now).2 m := by
  have hsc := handle_short_circuits_no_quota (find_user db s now) m now hq
  have hcr : ∀ v : User, (command_reply v m).isSome := by
    intro v
    rcases hm with rfl | rfl <;> simp [command_reply]
  obtain ⟨sc, hscv⟩ := Option.isSome_iff_exists.mp (hcr _)
  have h1 : (handle_short_circuits (find_user db s now) m now).1 = some sc := by
    rw [hsc]
    exact hscv
  have hh := handle_message_short_circuit api db s m now sc h1
  rw [hh]
  have hp : (handle_short_circuits (find_user db s now) m now).2.phone_number = s := by
    rw [handle_short_circuits_phone]
    exact find_user_phone_number db s now
  refine ⟨rfl, ?_, ?_⟩
  · simp [update_db, hp, handle_short_circuits_messages]
  · rw [hsc]
    exact hscv.symm

end TextGpt

namespace TextGpt

/-! ### C7: non-short-circuited exchanges append exactly two entries -/

/-- C7, confirmed.  For every non-short-circuited call that completes
(any provider outcome, success or transport error alike), the persisted
history is exactly the loaded history followed by one user-role entry
holding the incoming text and one system-role entry holding the reply —
two appended entries, order preserved, nothing removed or truncated. -/
theorem exchange_appends_two_entries (api : CompletionApi) (db : DB)
    (s m : String) (now : Int)
    (h : (handle_short_circuits (find_user db s now) m now).1 = none) :
    (handle_message api db s m now).map
        (fun r => (r.db s).map (fun row => row.messages)) =
      (handle_message api db s m now).map
        (fun r => some ((find_user db s now).messages
          ++ [{ role := "User", content := m },
              { role := "System", content := r.reply }])) := by
  rw [handle_message_exchange api db s m now h]
  cases hg : get_gpt_response api (make_chat_completion_message
      ((handle_short_circuits (find_user db s now) m now).2.messages
        ++ [{ role := "User", content := m }])) with
  | none => rfl
  | some ret =>
      have hp : (handle_short_circuits (find_user db s now) m now).2.phone_number
          = s := by
        rw [handle_short_circuits_phone]
        exact find_user_phone_number db s now
      simp [update_db, hp, handle_short_circuits_messages]

/-! ### C1 (amended): provider failure handling -/

/-- C1, amended.  On a non-short-circuited call, a transport/API error
(`Err` from the provider call) is caught at the boundary and mapped to
the fixed fallback string "Failed to get response.", which is both the
returned reply and the persisted system-role turn; but an `Ok` response
with an empty candidate list is NOT caught: the `unwrap` at
`src/chatbot.rs:159` panics and the call produces no reply at all. -/
theorem provider_error_yields_fallback (db : DB) (s m : String) (now : Int)
    (e : String)
    (h : (handle_short_circuits (find_user db s now) m now).1 = none) :
    (handle_message (fun _ => Except.error e) db s m now).map
        (fun r => r.reply) = some "Failed to get response." ∧
      (handle_message (fun _ => Except.error e) db s m now).map
          (fun r => (r.db s).map (fun row => row.messages)) =
        some (some ((find_user db s now).messages
          ++ [{ role := "User", content := m },
              { role := "System", content := "Failed to get response." }])) ∧
      handle_message apiEmptyChoices db s m now = none := by
  have hp : (handle_short_circuits (find_user db s now) m now).2.phone_number
      = s := by
    rw [handle_short_circuits_phone]
    exact find_user_phone_number db s now
  refine ⟨?_, ?_, ?_⟩
  · rw [handle_message_exchange (fun _ => Except.error e) db s m now h]
    rfl
  · rw [handle_message_exchange (fun _ => Except.error e) db s m now h]
    have hg : get_gpt_response (fun _ => Except.error e)
        (make_chat_completion_message
          ((handle_short_circuits (find_user db s now) m now).2.messages
            ++ [{ role := "User", content := m }])) =
        some "Failed to get response." := rfl
    rw [hg]
    simp [update_db, hp, handle_short_circuits_messages]
  · rw [handle_message_exchange apiEmptyChoices db s m now h]
    rfl

end TextGpt

namespace TextGpt

/-! ### C4 (amended): the `!stats` reply string -/

/-- C4, amended.  For any sender whose stored row holds
`total_received = 1`, `total_sent = 1`, `received_today = 1` with a
non-empty history, inside the rolling window, a `!stats` call replies
exactly "Total messages received: 2, Total messages sent: 2, Messages
received today: 2" with the sent count replaced by 1: the received
counters include the `!stats` message itself (incremented before the
dispatch), but `total_sent` is formatted before any increment, so the
reply being produced is not counted. -/
theorem stats_reply_reports_unincremented_sent (api : CompletionApi)
    (db : DB) (s : String) (now : Int) (row : StoredRow)
    (hdb : db s = some row) (hm : row.messages ≠ [])
    (h1 : row.total_received = 1) (h2 : row.total_sent = 1)
    (h3 : row.received_today = 1)
    (hwin : now < row.last_reset * nanosPerSecond + oneDay) :
    (handle_message api db s "!stats" now).map (fun r => r.reply) =
      some ("Total messages received: 2, Total messages sent: 1, " ++
            "Messages received today: 2") := by
  have hu : find_user db s now =
      { phone_number := s, total_received := 1, total_sent := 1,
        received_today := 1, messages := row.messages,
        last_reset := row.last_reset * nanosPerSecond } := by
    unfold find_user
    rw [hdb]
    dsimp only
    rw [if_neg (by simpa [List.isEmpty_iff] using hm)]
    rw [h1, h2, h3]
  have hq : (daily_reset (find_user db s now) now).received_today + 1 <
      DAILY_MESSAGE_LIMIT := by
    rw [hu]
    unfold daily_reset
    rw [if_neg (not_le.mpr (by simpa using hwin))]
    show (1 : Int) + 1 < DAILY_MESSAGE_LIMIT
    decide
  have hc := command_purity api db s "!stats" now (Or.inr rfl) hq
  rw [hc.2.2]
  have hd : daily_reset (find_user db s now) now = find_user db s now := by
    rw [hu]
    unfold daily_reset
    rw [if_neg (not_le.mpr (by simpa using hwin))]
  rw [handle_short_circuits_no_quota _ _ _ hq, hd, hu]
  rfl

end TextGpt

namespace TextGpt

/-! ### C5 (amended): store round trip -/

/-- C5, amended.  `update_db` followed by `find_user` on the same
sender id is the identity on every session whose history is non-empty
and whose `last_reset` is a whole number of seconds (as every value the
store itself produces is); an empty history is re-seeded with the
default system prompt on load, and sub-second `last_reset` precision is
truncated by the epoch-seconds column. -/
theorem round_trip_identity (db : DB) (u : User) (now : Int)
    (hm : u.messages ≠ []) (hs : nanosPerSecond ∣ u.last_reset) :
    find_user (update_db db u) u.phone_number now = u := by
  obtain ⟨k, hk⟩ := hs
  have hrow : update_db db u u.phone_number =
      some { total_received := u.total_received, total_sent := u.total_sent,
             received_today := u.received_today, messages := u.messages,
             last_reset := Int.fdiv u.last_reset nanosPerSecond } := by
    unfold update_db
    rw [if_pos rfl]
  unfold find_user
  rw [hrow]
  dsimp only
  rw [if_neg (by simpa [List.isEmpty_iff] using hm)]
  have hl : Int.fdiv u.last_reset nanosPerSecond * nanosPerSecond
      = u.last_reset := by
    rw [hk, Int.mul_fdiv_cancel_left _ (by decide), mul_comm]
  rw [hl]

/-! ### C6 (amended): command recognition is an exact, untrimmed match -/

/-- C6, amended.  A message is handled as a command if and only if its
text — exactly as received, with NO whitespace trimming — equals
"!help" or "!stats" (case-sensitive); every other message, including
whitespace-padded command tokens and other "!"-prefixed words, is not a
command and (when not quota-blocked) falls through to the completion
flow. -/
theorem command_iff_exact_match :
    (∀ (u : User) (msg : String),
        (command_reply u msg).isSome ↔ msg = "!help" ∨ msg = "!stats") ∧
      ∀ (u : User) (msg : String) (now : Int),
        msg ≠ "!help" → msg ≠ "!stats" →
        (daily_reset u now).received_today + 1 < DAILY_MESSAGE_LIMIT →
        (handle_short_circuits u msg now).1 = none := by
  constructor
  · intro u msg
    unfold command_reply
    by_cases h1 : msg = "!help" <;> by_cases h2 : msg = "!stats" <;>
      simp [h1, h2]
  · intro u msg now h1 h2 hq
    rw [handle_short_circuits_no_quota u msg now hq]
    unfold command_reply
    rw [if_neg h1, if_neg h2]

/-! ### C9: daily reset semantics -/

/-- C9, confirmed.  On each call: if `now ≥ last_reset + 24h` the reset
fires (`received_today := 0`, `last_reset := now`), otherwise the reset
step changes nothing — and it runs before the quota comparison, so
after a rollover the call is never quota-blocked (the short-circuit
outcome is the command dispatch, not the quota reply); the state coming
out of `handle_short_circuits` carries the reset's `last_reset` and the
reset's `received_today` plus the unconditional increment. -/
theorem daily_reset_spec (u : User) (msg : String) (now : Int) :
    (now ≥ u.last_reset + oneDay →
        daily_reset u now = { u with received_today := 0, last_reset := now }) ∧
      (now < u.last_reset + oneDay → daily_reset u now = u) ∧
      (handle_short_circuits u msg now).2.last_reset =
        (daily_reset u now).last_reset ∧
      (handle_short_circuits u msg now).2.received_today =
        (daily_reset u now).received_today + 1 ∧
      (now ≥ u.last_reset + oneDay →
        (handle_short_circuits u msg now).1 =
          command_reply (handle_short_circuits u msg now).2 msg) := by
  refine ⟨?_, ?_, ?_, ?_, ?_⟩
  · intro h
    unfold daily_reset
    rw [if_pos h]
  · intro h
    unfold daily_reset
    rw [if_neg (not_le.mpr h)]
  · unfold handle_short_circuits
    dsimp only
    split <;> rfl
  · unfold handle_short_circuits
    dsimp only
    split <;> rfl
  · intro h
    have hz : (daily_reset u now).received_today = 0 := by
      unfold daily_reset
      rw [if_pos h]
    have hq : (daily_reset u now).received_today + 1 < DAILY_MESSAGE_LIMIT := by
      rw [hz]
      decide
    rw [handle_short_circuits_no_quota u msg now hq]

/-! ### C10: total role mapping preserving the message list -/

/-- C10, confirmed.  `make_chat_completion_message` is total, keeps the
number and order of entries (it is exactly a map over the list), sends
the role string "User" to the provider's user role and every other role
string — "System", "Assistant" or anything else — to the provider's
system role, wrapping each content in `Some` and never rejecting an
entry. -/
theorem make_chat_completion_message_total_map (messages : List GPTMessage) :
    make_chat_completion_message messages =
      messages.map (fun m =>
        { role :=
            if m.role = "User" then ChatCompletionMessageRole.user
            else ChatCompletionMessageRole.system,
          content := some m.content, name := none, function_call := none,
          tool_call_id := none, tool_calls := [] }) ∧
      (make_chat_completion_message messages).length = messages.length := by
  constructor
  · unfold make_chat_completion_message
    refine List.map_congr_left (fun m _ => ?_)
    by_cases h1 : m.role = "User"
    · simp [h1]
    · by_cases h2 : m.role = "Assistant" <;>
        by_cases h3 : m.role = "System" <;> simp [h1, h2, h3]
  · unfold make_chat_completion_message
    exact List.length_map _ _

end TextGpt

namespace TextGpt

/-! ### Witnesses -/

/-- A sender already at the quota: 10 messages received today. -/
def quotaScenarioDB : DB := fun pn =>
  if pn = "+1555" then
    some { total_received := 10, total_sent := 9, received_today := 10,
           messages := [{ role := "System", content := defaultPrompt }],
           last_reset := 0 }
  else none

/-- A session with non-empty history and whole-second `last_reset`. -/
def wholeSecondSession : User :=
  { phone_number := "+1555", total_received := 3, total_sent := 2,
    received_today := 1,
    messages := [{ role := "System", content := defaultPrompt }],
    last_reset := nanosPerSecond * 5 }

/-- Witness for `provider_error_yields_fallback` at a concrete input. -/
theorem provider_error_yields_fallback_witness :
    (handle_message (fun _ => Except.error "boom") emptyDB "+1555" "hi" 0).map
        (fun r => r.reply) = some "Failed to get response." ∧
      (handle_message (fun _ => Except.error "boom") emptyDB "+1555" "hi" 0).map
          (fun r => (r.db "+1555").map (fun row => row.messages)) =
        some (some ((find_user emptyDB "+1555" 0).messages
          ++ [{ role := "User", content := "hi" },
              { role := "System", content := "Failed to get response." }])) ∧
      handle_message apiEmptyChoices emptyDB "+1555" "hi" 0 = none :=
  provider_error_yields_fallback emptyDB "+1555" "hi" 0 "boom" (by decide)

/-- Witness for `quota_blocked_every_message` at a concrete input. -/
theorem quota_blocked_every_message_witness :
    (handle_message apiErr quotaScenarioDB "+1555" "!help" 0).map
        (fun r => r.reply) =
      some (quotaMessage
        ((find_user quotaScenarioDB "+1555" 0).last_reset + oneDay)) ∧
      (handle_message apiErr quotaScenarioDB "+1555" "!help" 0).map
          (fun r => r.calledGpt) = some false ∧
      (handle_message apiErr quotaScenarioDB "+1555" "!help" 0).map
          (fun r => r.db "+1555") =
        some (some
          { total_received := (find_user quotaScenarioDB "+1555" 0).total_received + 1,
            total_sent := (find_user quotaScenarioDB "+1555" 0).total_sent,
            received_today := (find_user quotaScenarioDB "+1555" 0).received_today + 1,
            messages := (find_user quotaScenarioDB "+1555" 0).messages,
            last_reset :=
              Int.fdiv (find_user quotaScenarioDB "+1555" 0).last_reset
                nanosPerSecond }) :=
  quota_blocked_every_message apiErr quotaScenarioDB "+1555" "!help" 0
    (by decide) (by decide)

/-- Witness for `stats_reply_reports_unincremented_sent` at the spec's
scenario-2 store state. -/
theorem stats_reply_reports_unincremented_sent_witness :
    (handle_message apiErr statsScenarioDB "+1555" "!stats" 0).map
        (fun r => r.reply) =
      some ("Total messages received: 2, Total messages sent: 1, " ++
            "Messages received today: 2") :=
  stats_reply_reports_unincremented_sent apiErr statsScenarioDB "+1555" 0
    { total_received := 1, total_sent := 1, received_today := 1,
      messages := [{ role := "System", content := defaultPrompt }],
      last_reset := 0 }
    rfl (by decide) rfl rfl rfl (by decide)

/-- Witness for `round_trip_identity` at a concrete session. -/
theorem round_trip_identity_witness :
    find_user (update_db emptyDB wholeSecondSession) "+1555" 7 =
      wholeSecondSession :=
  round_trip_identity emptyDB wholeSecondSession 7 (by decide) ⟨5, rfl⟩

/-- Witness for `command_iff_exact_match` at a concrete input. -/
theorem command_iff_exact_match_witness :
    (handle_short_circuits emptySession "hello" 0).1 = none :=
  command_iff_exact_match.2 emptySession "hello" 0 (by decide) (by decide)
    (by decide)

/-- Witness for `exchange_appends_two_entries` at a concrete input. -/
theorem exchange_appends_two_entries_witness :
    (handle_message apiErr emptyDB "+1555" "hi" 0).map
        (fun r => (r.db "+1555").map (fun row => row.messages)) =
      (handle_message apiErr emptyDB "+1555" "hi" 0).map
        (fun r => some ((find_user emptyDB "+1555" 0).messages
          ++ [{ role := "User", content := "hi" },
              { role := "System", content := r.reply }])) :=
  exchange_appends_two_entries apiErr emptyDB "+1555" "hi" 0 (by decide)

/-- Witness for `command_purity` at a concrete input. -/
theorem command_purity_witness :
    (handle_message apiErr statsScenarioDB "+1555" "!help" 0).map
        (fun r => r.calledGpt) = some false ∧
      (handle_message apiErr statsScenarioDB "+1555" "!help" 0).map
          (fun r => (r.db "+1555").map (fun row => row.messages)) =
        some (some (find_user statsScenarioDB "+1555" 0).messages) ∧
      (handle_message apiErr statsScenarioDB "+1555" "!help" 0).map
          (fun r => r.reply) =
        command_reply
          (handle_short_circuits (find_user statsScenarioDB "+1555" 0)
            "!help" 0).2 "!help" :=
  command_purity apiErr statsScenarioDB "+1555" "!help" 0 (Or.inl rfl)
    (by decide)

/-- Witness for `daily_reset_spec`: the reset branch fires one day
after the epoch, and a post-rollover call is not quota-blocked. -/
theorem daily_reset_spec_witness :
    daily_reset emptySession oneDay =
      { emptySession with received_today := 0, last_reset := oneDay } ∧
      (handle_short_circuits emptySession "!help" oneDay).1 =
        command_reply (handle_short_circuits emptySession "!help" oneDay).2
          "!help" :=
  ⟨(daily_reset_spec emptySession "!help" oneDay).1 (by decide),
   (daily_reset_spec emptySession "!help" oneDay).2.2.2.2 (by decide)⟩

end TextGpt
